import Mathlib

/-!
Verification of the FTP security-scanner core (src/utils/ftp.py) against its
natural-language specification.  The Python class ftpSecurityTest is shallowly
embedded: the pure permission parser of getMaxRights becomes a pure function
over listing lines; the probe checkWriteAndDeleteAccess becomes a function over
an abstract session describing each FTP operation's outcome, returning the
issued call trace and either the four result flags or the propagated error;
the recursive directory scanner __getContent becomes a fuel-indexed function
over a model file-system tree with an explicit session state (current working
directory and call trace).
-/

set_option autoImplicit false

namespace FtpScan

/-- Error categories of ftplib operations that the code discriminates:
error_perm, error_temp, error_reply, error_proto. -/
inductive FtpErr where
  | perm
  | temp
  | reply
  | proto
deriving DecidableEq, Repr

/-- Outcome of one FTP command issued by the probe: success or a raised error. -/
inductive OpResult where
  | ok
  | err (e : FtpErr)
deriving DecidableEq, Repr

/- ------------------------------------------------------------------ -/
/- RightsCodec: the pure parsing part of ftpSecurityTest.getMaxRights -/
/- ------------------------------------------------------------------ -/

/-- Accumulator of getMaxRights lines 235-268: is_valid_dir, is_valid_file,
result_dir, result_file (two 9-slot boolean vectors). -/
structure RightsAcc where
  isDir : Bool
  isFile : Bool
  dirBits : List Bool
  fileBits : List Bool
deriving DecidableEq, Repr

/-- Initial accumulator: flags false, both vectors [False]*9 (lines 235-236,
248-249). -/
def accInit : RightsAcc :=
  { isDir := false, isFile := false,
    dirBits := List.replicate 9 false, fileBits := List.replicate 9 false }

/-- Condition of lines 262-264 deciding whether character c at position i of a
listing line sets the permission bit i-1: read at i%3==1, write at i%3==2,
execute (x, X or s) at i%3==0. -/
def bitMatch (c : Char) (i : Nat) : Bool :=
  (c == 'r' && i % 3 == 1) || (c == 'w' && i % 3 == 2) ||
    ((c == 'x' || c == 'X' || c == 's') && i % 3 == 0)

/-- Inner loop of lines 259-268: for i in range(1, 10), inspect character i of
the line and set slot i-1 of the current vector when bitMatch holds.  The
source indexes line[i]; here the characters at positions 1..9 are walked as
the zip of (chars.drop 1).take 9 with the positions 1..9, which are exactly
the same characters because the line has length > 10. -/
def applyBits (chars : List Char) (bits : List Bool) : List Bool :=
  (List.zip ((chars.drop 1).take 9) (List.range' 1 9)).foldl
    (fun b ci => if bitMatch ci.1 ci.2 then b.set (ci.2 - 1) true else b) bits

/-- One iteration of the line loop (lines 250-268): lines of length <= 10 are
skipped; character 0 must be '-' (file) or 'd' (directory), anything else
(notably 'l' symlinks) is excluded; the matching kind's flag is set and its
bit vector accumulated.  The source re-tests line[0] == 'd' at every position
of the inner loop; the test is hoisted here since line[0] is fixed. -/
def scanLine (acc : RightsAcc) (line : String) : RightsAcc :=
  if line.length > 10 then
    if line.data.getD 0 ' ' = '-' ∨ line.data.getD 0 ' ' = 'd' then
      if line.data.getD 0 ' ' = 'd' then
        { acc with isDir := true, dirBits := applyBits line.data acc.dirBits }
      else
        { acc with isFile := true, fileBits := applyBits line.data acc.fileBits }
    else acc
  else acc

/-- Digit composition of lines 274-324: each set slot contributes its octal
weight 400,200,100,40,20,10,4,2,1, accumulated by addition. -/
def vecToRights (v : List Bool) : Int :=
  (if v.getD 0 false then 400 else 0) + (if v.getD 1 false then 200 else 0) +
  (if v.getD 2 false then 100 else 0) + (if v.getD 3 false then 40 else 0) +
  (if v.getD 4 false then 20 else 0) + (if v.getD 5 false then 10 else 0) +
  (if v.getD 6 false then 4 else 0) + (if v.getD 7 false then 2 else 0) +
  (if v.getD 8 false then 1 else 0)

/-- Pure part of ftpSecurityTest.getMaxRights (lines 244-324), from the listing
lines to the (dir rights, file rights) pair: empty listing gives (-1, -1);
after accumulation, a kind never observed yields -1 for its component. -/
def parseMaxRights (data : List String) : Int × Int :=
  if data.length ≤ 0 then (-1, -1)
  else
    let acc := data.foldl scanLine accInit
    if acc.isDir = false ∧ acc.isFile = false then (-1, -1)
    else
      ((if acc.isDir then vecToRights acc.dirBits else -1),
       (if acc.isFile then vecToRights acc.fileBits else -1))

/-- ftpSecurityTest.getMaxRights including the error handling of lines
238-242: the dir command refused with error_perm returns (-1, -1); any other
ftplib error is not caught and propagates. -/
def getMaxRights (listing : Except FtpErr (List String)) : Except FtpErr (Int × Int) :=
  match listing with
  | .error FtpErr.perm => .ok (-1, -1)
  | .error e => .error e
  | .ok data => .ok (parseMaxRights data)

/-- A listing line that getMaxRights counts as a directory entry: length > 10
and first character 'd'. -/
def isDirLine (l : String) : Bool :=
  decide (l.length > 10) && (l.data.getD 0 ' ' == 'd')

/-- A listing line that getMaxRights counts as a regular-file entry: length >
10 and first character '-'. -/
def isFileLine (l : String) : Bool :=
  decide (l.length > 10) && (l.data.getD 0 ' ' == '-')

/- ------------------------------------------------------------------ -/
/- PermissionProbe: ftpSecurityTest.checkWriteAndDeleteAccess          -/
/- ------------------------------------------------------------------ -/

/-- The four FTP commands the probe can issue (mkd, rmd, STOR, delete). -/
inductive ProbeCall where
  | mkd
  | rmd
  | stor
  | delete
deriving DecidableEq, Repr

/-- Abstract session for the probe: the outcome each FTP operation would have
if issued. -/
structure ProbeSession where
  mkd : OpResult
  rmd : OpResult
  stor : OpResult
  delete : OpResult
deriving DecidableEq, Repr

/-- File half of checkWriteAndDeleteAccess (lines 208-223): try storbinary,
catching only error_perm; on success try delete, catching only error_perm;
any other error propagates.  Returns the issued calls and the final result
list [can_create_dir, can_delete_dir, can_upload_file, can_delete_file]. -/
def fileStep (tr : List ProbeCall) (cd dd : Bool) (s : ProbeSession) :
    List ProbeCall × Except FtpErr (Bool × Bool × Bool × Bool) :=
  match s.stor with
  | .err FtpErr.perm => (tr ++ [ProbeCall.stor], .ok (cd, dd, false, false))
  | .err e => (tr ++ [ProbeCall.stor], .error e)
  | .ok =>
    match s.delete with
    | .err FtpErr.perm => (tr ++ [ProbeCall.stor, ProbeCall.delete], .ok (cd, dd, true, false))
    | .err e => (tr ++ [ProbeCall.stor, ProbeCall.delete], .error e)
    | .ok => (tr ++ [ProbeCall.stor, ProbeCall.delete], .ok (cd, dd, true, true))

/-- ftpSecurityTest.checkWriteAndDeleteAccess (lines 189-223): try mkd,
catching only error_perm; on success try rmd, catching only error_perm; then
the file half.  Any error other than error_perm is not caught and aborts the
probe, propagating to the caller. -/
def checkWriteAndDeleteAccess (s : ProbeSession) :
    List ProbeCall × Except FtpErr (Bool × Bool × Bool × Bool) :=
  match s.mkd with
  | .err FtpErr.perm => fileStep [ProbeCall.mkd] false false s
  | .err e => ([ProbeCall.mkd], .error e)
  | .ok =>
    match s.rmd with
    | .err FtpErr.perm => fileStep [ProbeCall.mkd, ProbeCall.rmd] true false s
    | .err e => ([ProbeCall.mkd, ProbeCall.rmd], .error e)
    | .ok => fileStep [ProbeCall.mkd, ProbeCall.rmd] true true s

/-- Flags of a completed probe; a propagated error returns no flags, rendered
here as the all-false report. -/
def flagsOf (s : ProbeSession) : Bool × Bool × Bool × Bool :=
  match (checkWriteAndDeleteAccess s).2 with
  | .ok f => f
  | .error _ => (false, false, false, false)

/-- Successful probe result, if any. -/
def okOf (r : Except FtpErr (Bool × Bool × Bool × Bool)) :
    Option (Bool × Bool × Bool × Bool) :=
  match r with
  | .ok f => some f
  | .error _ => none

/-- Propagated probe error, if any. -/
def errOf (r : Except FtpErr (Bool × Bool × Bool × Bool)) : Option FtpErr :=
  match r with
  | .ok _ => none
  | .error e => some e

/-- Step 1 of the probe raised nothing that propagates: mkd was refused with
error_perm, or mkd succeeded and rmd succeeded or was refused with
error_perm. -/
def step1Clean (s : ProbeSession) : Bool :=
  s.mkd == OpResult.err FtpErr.perm ||
    (s.mkd == OpResult.ok &&
      (s.rmd == OpResult.ok || s.rmd == OpResult.err FtpErr.perm))

/-- Python randrange(lo, hi) modelled on an abstract random draw: a value in
[lo, hi). -/
def randrange (lo hi seed : Nat) : Nat := lo + seed % (hi - lo)

/-- The default argument values of checkWriteAndDeleteAccess (lines 177-178).
Python evaluates default parameter expressions exactly once, when the def
statement itself is executed, so the two random draws happen at definition
time and produce one fixed pair of names for the lifetime of the class. -/
structure ProbeDefaults where
  dir_name : String
  filename : String
deriving DecidableEq, Repr

/-- Evaluation of the two default expressions "folder_to_delete_"+str(...)
and "file_to_delete_"+str(...) at function-definition time. -/
def defDefaults (seed1 seed2 : Nat) : ProbeDefaults :=
  { dir_name := "folder_to_delete_" ++ toString (randrange 100000000 900000000 seed1),
    filename := "file_to_delete_" ++ toString (randrange 100000000 900000000 seed2) }

/-- Names actually used by one invocation of checkWriteAndDeleteAccess: an
explicit argument if supplied, else the definition-time default. -/
def callNames (d : ProbeDefaults) (dirArg fileArg : Option String) : String × String :=
  (dirArg.getD d.dir_name, fileArg.getD d.filename)

/-- Names used by two successive invocations that both omit the name
arguments.  Both calls read the same definition-time defaults d; no new
random draw happens at call time. -/
def twoDefaultCalls (d : ProbeDefaults) : (String × String) × (String × String) :=
  (callNames d none none, callNames d none none)

/- ------------------------------------------------------------------ -/
/- DirectoryTreeScanner: ftpSecurityTest.__getContent                  -/
/- ------------------------------------------------------------------ -/

/-- Model remote file system: a file, or a directory with named children.
A directory carries a denied flag: true means its name listing (nlst) is
refused with error_perm. -/
inductive FS where
  | file : FS
  | dir (denied : Bool) (children : List (String × FS)) : FS

/-- Result tree of the scan, mirroring the Python return values: the string
marker '+' (a branch truncated by a limit), the empty string '' (a file or an
inaccessible entry), or a dictionary of children. -/
inductive Node where
  | trunc : Node
  | leaf : Node
  | subtree (children : List (String × Node)) : Node

/-- Session events recorded for the traversal claims: a name listing, an
attempted change of directory, a change to the parent directory. -/
inductive Event where
  | nlst
  | cwdCall (name : String)
  | cwdUp
deriving DecidableEq, Repr

/-- Server-side session state threaded through the traversal: the current
working directory as a path from the root, plus the call trace. -/
structure SessionSt where
  cwd : List String
  trace : List Event

/-- Value of the optimized parameter as Python sees it: the top-level call
passes the bool True, but the recursive call at line 81 passes count, an int,
into the optimized slot, so the parameter's Python truthiness matters. -/
inductive PyVal where
  | bool (b : Bool)
  | int (n : Int)

/-- Python truthiness: a bool is itself, an int is truthy iff nonzero. -/
def PyVal.truthy : PyVal → Bool
  | .bool b => b
  | .int n => if n = 0 then false else true

/-- Python dict assignment level[name] = v: overwrite an existing key in
place, else append, preserving insertion order. -/
def setKey (l : List (String × Node)) (k : String) (v : Node) : List (String × Node) :=
  match l with
  | [] => [(k, v)]
  | (k', v') :: rest => if k' = k then (k, v) :: rest else (k', v') :: setKey rest k v

/-- Helper for str.split("/"): split a character list at '/'. -/
def splitChars : List Char → List Char → List (List Char)
  | [], acc => [acc.reverse]
  | c :: cs, acc =>
    if c = '/' then acc.reverse :: splitChars cs [] else splitChars cs (c :: acc)

/-- Lines 68-69: entry.split("/") and its last element. -/
def lastSegment (s : String) : String :=
  String.mk ((splitChars s.data []).getLastD [])

/-- Python str.find: index of the first occurrence, -1 if absent. -/
def pyFind (s : String) (c : Char) : Int :=
  match s.data.findIdx? (fun x => x == c) with
  | some i => (i : Int)
  | none => -1

/-- First child of a directory listing with the given name. -/
def lookupChild : List (String × FS) → String → Option FS
  | [], _ => none
  | (k, t) :: rest, n => if k = n then some t else lookupChild rest n

/-- Subtree of the model file system at a path. -/
def FS.lookup : FS → List String → Option FS
  | t, [] => some t
  | FS.file, _ :: _ => none
  | FS.dir _ cs, n :: p =>
    match lookupChild cs n with
    | some t => FS.lookup t p
    | none => none

/-- ftp_instance.nlst(): record the call; list the names of the current
working directory's children, or raise error_perm when that directory's
listing is denied. -/
def nlstOp (fs : FS) (st : SessionSt) : Except FtpErr (List String) × SessionSt :=
  let st := { st with trace := st.trace ++ [Event.nlst] }
  match fs.lookup st.cwd with
  | some (FS.dir denied cs) =>
    if denied then (.error FtpErr.perm, st) else (.ok (cs.map Prod.fst), st)
  | _ => (.error FtpErr.perm, st)

/-- ftp_instance.cwd(entry): record the call; enter the named child when it is
a directory, raise error_perm when it is a file or absent (550 reply). -/
def cwdOp (fs : FS) (name : String) (st : SessionSt) : Except FtpErr Unit × SessionSt :=
  let st := { st with trace := st.trace ++ [Event.cwdCall name] }
  match fs.lookup st.cwd with
  | some (FS.dir _ cs) =>
    match lookupChild cs name with
    | some (FS.dir _ _) => (.ok (), { st with cwd := st.cwd ++ [name] })
    | _ => (.error FtpErr.perm, st)
  | _ => (.error FtpErr.perm, st)

/-- ftp_instance.cwd('..'): record the call and drop the last path segment. -/
def cwdUpOp (st : SessionSt) : SessionSt :=
  { st with cwd := st.cwd.dropLast, trace := st.trace ++ [Event.cwdUp] }

/-- Body of the per-entry try block (lines 70-86).  name.find(".") <= 0 or not
optimized: attempt cwd(entry); on success recurse, assign the result and
cwd('..'); otherwise record the entry as ''.  The recursive call at line 81 is
self.__getContent(max_depth, max_files, count, depth + 1), whose positional
arguments land as optimized := count, count := depth + 1, depth := 0 (its
default).  The except clause catches error_perm, error_temp, error_reply and
error_proto, which are all the errors the model session can raise, both from
cwd(entry) and from the recursive call; in either case level[name] = '' and
whatever state the failed descent left behind persists.  A none result means
the model ran out of fuel. -/
def processEntry (fs : FS)
    (recurse : PyVal → Int → Int → SessionSt → Option (Except FtpErr Node × SessionSt))
    (opt : PyVal) (cnt dep : Int) (entry : String)
    (level : List (String × Node)) (st : SessionSt) :
    Option (List (String × Node) × SessionSt) :=
  let name := lastSegment entry
  if pyFind name '.' ≤ 0 ∨ opt.truthy = false then
    match cwdOp fs entry st with
    | (.error _, st') => some (setKey level name Node.leaf, st')
    | (.ok _, st') =>
      match recurse (PyVal.int cnt) (dep + 1) 0 st' with
      | none => none
      | some (.error _, st'') => some (setKey level name Node.leaf, st'')
      | some (.ok node, st'') => some (setKey level name node, cwdUpOp st'')
  else
    some (setKey level name Node.leaf, st)

/-- One invocation of __getContent (lines 44-90), with the recursive call
abstracted: when max_files >= 0, count is incremented once and reaching
max_files returns '+'; when max_depth >= 0 and depth > max_depth, return '+';
otherwise list the current directory, filter '.' and '..', and process every
entry in order, building the level dictionary. -/
def scanStep (fs : FS) (maxd maxf : Int)
    (recurse : PyVal → Int → Int → SessionSt → Option (Except FtpErr Node × SessionSt))
    (opt : PyVal) (cnt dep : Int) (st : SessionSt) :
    Option (Except FtpErr Node × SessionSt) :=
  let cnt := if maxf ≥ 0 then cnt + 1 else cnt
  if maxf ≥ 0 ∧ cnt ≥ maxf then some (.ok Node.trunc, st)
  else if maxd ≥ 0 ∧ dep > maxd then some (.ok Node.trunc, st)
  else
    match nlstOp fs st with
    | (.error e, st) => some (.error e, st)
    | (.ok names, st) =>
      match (names.filter (fun p => p ≠ "." ∧ p ≠ "..")).foldl
          (fun acc entry =>
            match acc with
            | none => none
            | some (level, st) => processEntry fs recurse opt cnt dep entry level st)
          (some ([], st)) with
      | none => none
      | some (level, st) => some (.ok (Node.subtree level), st)

/-- ftpSecurityTest.__getContent, indexed by fuel bounding the recursion
depth; fuel is an artifact of the embedding and every theorem below supplies
enough of it for its concrete tree. -/
def getContentAux (fs : FS) (maxd maxf : Int) :
    Nat → PyVal → Int → Int → SessionSt → Option (Except FtpErr Node × SessionSt)
  | 0, _, _, _, _ => none
  | Nat.succ fuel, opt, cnt, dep, st =>
    scanStep fs maxd maxf (getContentAux fs maxd maxf fuel) opt cnt dep st

/-- Session state at connection time: root working directory, empty trace. -/
def initialSt : SessionSt := { cwd := [], trace := [] }

/-- ftpSecurityTest.getContent (lines 163-174): the public entry point calls
__getContent(max_depth, max_files), so optimized takes its default True,
count its default -1 and depth its default 0. -/
def getContent (fs : FS) (fuel : Nat) (maxd maxf : Int) :
    Option (Except FtpErr Node × SessionSt) :=
  getContentAux fs maxd maxf fuel (PyVal.bool true) (-1) 0 initialSt

/-- Tree node returned by a scan. -/
def scanNode (fs : FS) (fuel : Nat) (maxd maxf : Int) : Option (Except FtpErr Node) :=
  (getContent fs fuel maxd maxf).map Prod.fst

/-- Working directory the session is left in after a scan. -/
def scanFinalCwd (fs : FS) (fuel : Nat) (maxd maxf : Int) : Option (List String) :=
  (getContent fs fuel maxd maxf).map (fun r => r.2.cwd)

/-- Call trace of a scan. -/
def scanTrace (fs : FS) (fuel : Nat) (maxd maxf : Int) : Option (List Event) :=
  (getContent fs fuel maxd maxf).map (fun r => r.2.trace)

/-- Test tree for the depth limit: a root with one extension-less directory
sub containing one file, and one file at the root. -/
def fsDepthZero : FS :=
  FS.dir false [("sub", FS.dir false [("x.txt", FS.file)]), ("a.txt", FS.file)]

/-- Test tree for the file-count limit: a root with exactly 5 entries, two
empty directories and three files. -/
def fsFiveEntries : FS :=
  FS.dir false
    [("d1", FS.dir false []), ("d2", FS.dir false []),
     ("f1.txt", FS.file), ("f2.txt", FS.file), ("f3.txt", FS.file)]

/-- Test tree for the working-directory invariant: child a is a directory
whose listing is refused with error_perm, child b is an ordinary empty
directory. -/
def fsDeniedChild : FS :=
  FS.dir false [("a", FS.dir true []), ("b", FS.dir false [])]

/-- Test tree for the classification heuristic: a directory sub containing a
single dotted file name. -/
def fsDotLeak : FS :=
  FS.dir false [("sub", FS.dir false [("file.txt", FS.file)])]

/- ------------------------------------------------------------------ -/
/- Helper lemmas                                                       -/
/- ------------------------------------------------------------------ -/

theorem scanLine_isDir (acc : RightsAcc) (l : String) :
    (scanLine acc l).isDir = (acc.isDir || isDirLine l) := by
  unfold scanLine isDirLine
  split_ifs with h1 h2 h3 <;> simp_all

theorem scanLine_isFile (acc : RightsAcc) (l : String) :
    (scanLine acc l).isFile = (acc.isFile || isFileLine l) := by
  unfold scanLine isFileLine
  split_ifs with h1 h2 h3 <;> simp_all

theorem foldl_isDir (data : List String) : ∀ acc : RightsAcc,
    (data.foldl scanLine acc).isDir = (acc.isDir || data.any isDirLine) := by
  induction data with
  | nil => intro acc; simp
  | cons l rest ih =>
    intro acc
    simp [List.foldl, ih, scanLine_isDir, Bool.or_assoc]

theorem foldl_isFile (data : List String) : ∀ acc : RightsAcc,
    (data.foldl scanLine acc).isFile = (acc.isFile || data.any isFileLine) := by
  induction data with
  | nil => intro acc; simp
  | cons l rest ih =>
    intro acc
    simp [List.foldl, ih, scanLine_isFile, Bool.or_assoc]

theorem vecToRights_nonneg (v : List Bool) : 0 ≤ vecToRights v := by
  unfold vecToRights
  repeat' apply add_nonneg
  all_goals split <;> norm_num

theorem parseMaxRights_fst_char (data : List String) :
    ((parseMaxRights data).1 = -1 ↔ data.any isDirLine = false) := by
  by_cases h : data.length ≤ 0
  · have hnil : data = [] := List.eq_nil_of_length_eq_zero (Nat.le_zero.mp h)
    subst hnil
    simp [parseMaxRights]
  · have hD : (data.foldl scanLine accInit).isDir = data.any isDirLine := by
      rw [foldl_isDir]; rfl
    have hF : (data.foldl scanLine accInit).isFile = data.any isFileLine := by
      rw [foldl_isFile]; rfl
    have hnn := vecToRights_nonneg (data.foldl scanLine accInit).dirBits
    unfold parseMaxRights
    rw [if_neg h]
    rcases hA : data.any isDirLine <;> rcases hB : data.any isFileLine <;>
      simp [hD, hF, hA, hB] <;> omega

theorem parseMaxRights_snd_char (data : List String) :
    ((parseMaxRights data).2 = -1 ↔ data.any isFileLine = false) := by
  by_cases h : data.length ≤ 0
  · have hnil : data = [] := List.eq_nil_of_length_eq_zero (Nat.le_zero.mp h)
    subst hnil
    simp [parseMaxRights]
  · have hD : (data.foldl scanLine accInit).isDir = data.any isDirLine := by
      rw [foldl_isDir]; rfl
    have hF : (data.foldl scanLine accInit).isFile = data.any isFileLine := by
      rw [foldl_isFile]; rfl
    have hnn := vecToRights_nonneg (data.foldl scanLine accInit).fileBits
    unfold parseMaxRights
    rw [if_neg h]
    rcases hA : data.any isDirLine <;> rcases hB : data.any isFileLine <;>
      simp [hD, hF, hA, hB] <;> omega

theorem scanLine_dir_eval (acc : RightsAcc) (l : String) (h : l.length > 10)
    (hc : l.data.getD 0 ' ' = 'd') :
    scanLine acc l = { acc with isDir := true, dirBits := applyBits l.data acc.dirBits } := by
  unfold scanLine
  rw [if_pos h, hc]
  simp

theorem scanLine_file_eval (acc : RightsAcc) (l : String) (h : l.length > 10)
    (hc : l.data.getD 0 ' ' = '-') :
    scanLine acc l = { acc with isFile := true, fileBits := applyBits l.data acc.fileBits } := by
  unfold scanLine
  rw [if_pos h, hc]
  simp

/- ------------------------------------------------------------------ -/
/- Claim theorems                                                      -/
/- ------------------------------------------------------------------ -/

/-- C1: evaluation of the code at the failing input.  Scanning fsDepthZero
with max_depth = 0 returns a root Subtree in which the directory-type child
sub is a fully expanded Subtree, not Truncated: the recursive call at line 81
passes depth+1 into the count parameter, so depth keeps its default 0 in
every recursive invocation and the depth check at line 62 never fires below
the root.  The claim requires sub to be Truncated. -/
theorem depth_limit_not_enforced_eval :
    scanNode fsDepthZero 10 0 (-1) =
      some (.ok (Node.subtree
        [("sub", Node.subtree [("x.txt", Node.leaf)]), ("a.txt", Node.leaf)])) := rfl

/-- C2: evaluation of the code at the failing input.  Scanning fsFiveEntries
(5 entries) with max_files = 2 processes all five root entries: the count is
incremented once per __getContent invocation (line 59), never once per listed
entry, and line 81 passes depth+1 as the recursive count, so the two
directory children come back Truncated while the three files are ordinary
leaves.  The claim requires exactly 2 entries visited and the remaining 3
Truncated. -/
theorem file_limit_miscount_eval :
    scanNode fsFiveEntries 10 (-1) 2 =
      some (.ok (Node.subtree
        [("d1", Node.trunc), ("d2", Node.trunc),
         ("f1.txt", Node.leaf), ("f2.txt", Node.leaf), ("f3.txt", Node.leaf)])) := rfl

/-- C3: evaluation of the code at the failing input.  Scanning fsDeniedChild
descends into directory a, whose listing raises error_perm; the exception is
absorbed as a Leaf, but cwd('..') at line 82 sits inside the try block and is
skipped, so the session finishes the scan with working directory a instead of
the root: the pre-descent working directory is not restored, contradicting
the claimed traversal-symmetry invariant. -/
theorem cwd_not_restored_eval :
    scanFinalCwd fsDeniedChild 10 (-1) (-1) = some ["a"] ∧
      scanFinalCwd fsDeniedChild 10 (-1) (-1) ≠ some initialSt.cwd :=
  ⟨rfl, by decide⟩

/-- C5: evaluation of the code at the failing input.  A scan of fsDotLeak via
getContent (optimized takes its default True) with max_files = 5 issues
exactly one changeDirectory call for the name file.txt, whose first dot is at
position 4: the recursive call at line 81 passes count (an int, here 0) into
the optimized slot, so the depth-1 invocation is un-optimized and attempts
cwd on a dotted file name.  The claim requires zero directory-change calls
for such names. -/
theorem optimized_leak_eval :
    (scanTrace fsDotLeak 10 (-1) 5).map
        (fun tr => tr.count (Event.cwdCall "file.txt")) = some 1 := rfl

/-- C4 counterexample: on the listing made of exactly the two ten-character
directory lines of the claim, parseMaxRights returns (-1, -1), not a
directory rights value of 775, because getMaxRights only parses lines of
length strictly greater than 10 (line 251). -/
theorem parseMaxRights_ten_char_lines_excluded :
    parseMaxRights ["drwx------", "d---r-xr-x"] = (-1, -1) ∧
      (parseMaxRights ["drwx------", "d---r-xr-x"]).1 ≠ 775 := by decide

/-- C4 amended: on the same two directory permission strings extended with
trailing text so that the lines exceed 10 characters, parseMaxRights returns
directory rights 755, the triad-wise union rwxr-xr-x of rwx------ and
---r-xr-x across both entries (not 775, and not either entry's individual
value 700 or 55), with no file-type entry observed. -/
theorem parseMaxRights_dir_union_amended :
    parseMaxRights ["drwx------ a", "d---r-xr-x b"] = (755, -1) ∧
      (parseMaxRights ["drwx------ a", "d---r-xr-x b"]).1 ≠ 700 ∧
      (parseMaxRights ["drwx------ a", "d---r-xr-x b"]).1 ≠ 55 := by decide

/-- C9: on a listing with one directory line whose permission string is
drwxr-xr-x followed by any further text and one file line whose permission
string is -rw-r--r-- followed by any further text, parseMaxRights returns
(755, 644): each digit is the sum of 4 for read, 2 for write and 1 for
execute of its triad, composed owner, group, other. -/
theorem parseMaxRights_basic_lines (s t : String) (hs : s ≠ "") (ht : t ≠ "") :
    parseMaxRights ["drwxr-xr-x" ++ s, "-rw-r--r--" ++ t] = (755, 644) := by
  obtain ⟨ls⟩ := s
  obtain ⟨lt⟩ := t
  cases ls with
  | nil => exact absurd rfl hs
  | cons c cs =>
    cases lt with
    | nil => exact absurd rfl ht
    | cons c' cs' =>
      have e1 : ("drwxr-xr-x" ++ String.mk (c :: cs)) =
          String.mk ('d' :: 'r' :: 'w' :: 'x' :: 'r' :: '-' :: 'x' :: 'r' :: '-' :: 'x' :: c :: cs) := rfl
      have e2 : ("-rw-r--r--" ++ String.mk (c' :: cs')) =
          String.mk ('-' :: 'r' :: 'w' :: '-' :: 'r' :: '-' :: '-' :: 'r' :: '-' :: '-' :: c' :: cs') := rfl
      rw [e1, e2]
      have h1 : (String.mk ('d' :: 'r' :: 'w' :: 'x' :: 'r' :: '-' :: 'x' :: 'r' :: '-' :: 'x' :: c :: cs)).length > 10 := by
        simp [String.length]
      have h2 : (String.mk ('-' :: 'r' :: 'w' :: '-' :: 'r' :: '-' :: '-' :: 'r' :: '-' :: '-' :: c' :: cs')).length > 10 := by
        simp [String.length]
      have hd1 : (String.mk ('d' :: 'r' :: 'w' :: 'x' :: 'r' :: '-' :: 'x' :: 'r' :: '-' :: 'x' :: c :: cs)).data.getD 0 ' ' = 'd' := rfl
      have hd2 : (String.mk ('-' :: 'r' :: 'w' :: '-' :: 'r' :: '-' :: '-' :: 'r' :: '-' :: '-' :: c' :: cs')).data.getD 0 ' ' = '-' := rfl
      unfold parseMaxRights
      rw [if_neg (by simp)]
      simp only [List.foldl]
      rw [scanLine_dir_eval accInit _ h1 hd1]
      rw [scanLine_file_eval _ _ h2 hd2]
      rfl

/-- C9 witness: the theorem applied to the concrete suffixes of the spec's
example lines. -/
theorem parseMaxRights_basic_lines_witness :
    parseMaxRights ["drwxr-xr-x" ++ " 2 u g 4096 dirA", "-rw-r--r--" ++ " 1 u g 0 fileA"] =
      (755, 644) :=
  parseMaxRights_basic_lines " 2 u g 4096 dirA" " 1 u g 0 fileA" (by decide) (by decide)

/-- C8: getMaxRights returns (-1, -1) when the detailed listing is refused
with error_perm, when it is empty, and when it contains only lines whose
first character is neither 'd' nor '-'; moreover each component of
parseMaxRights is -1 exactly when no parsed entry of that kind (a line longer
than 10 characters starting with 'd', respectively '-') occurs in the
listing. -/
theorem maxRights_minus_one_characterization :
    getMaxRights (.error FtpErr.perm) = .ok (-1, -1) ∧
    parseMaxRights [] = (-1, -1) ∧
    (∀ data : List String,
      (∀ l ∈ data, l.data.getD 0 ' ' ≠ 'd' ∧ l.data.getD 0 ' ' ≠ '-') →
      parseMaxRights data = (-1, -1)) ∧
    (∀ data : List String,
      ((parseMaxRights data).1 = -1 ↔ ∀ l ∈ data, isDirLine l = false) ∧
      ((parseMaxRights data).2 = -1 ↔ ∀ l ∈ data, isFileLine l = false)) := by
  refine ⟨rfl, rfl, ?_, ?_⟩
  · intro data h
    have hA : data.any isDirLine = false := by
      rw [List.any_eq_false]
      intro l hl
      have hnd := (h l hl).1
      simp [isDirLine]
      intro _
      simpa using hnd
    have hB : data.any isFileLine = false := by
      rw [List.any_eq_false]
      intro l hl
      have hnf := (h l hl).2
      simp [isFileLine]
      intro _
      simpa using hnf
    have h1 := (parseMaxRights_fst_char data).mpr hA
    have h2 := (parseMaxRights_snd_char data).mpr hB
    exact Prod.ext h1 h2
  · intro data
    constructor
    · rw [parseMaxRights_fst_char, List.any_eq_false]
      simp
    · rw [parseMaxRights_snd_char, List.any_eq_false]
      simp

/-- C8 witness: the characterization applied to a listing containing only a
symlink-type line. -/
theorem maxRights_minus_one_characterization_witness :
    parseMaxRights ["lrwxrwxrwx 1 u g 1 Jan 1 link -> t"] = (-1, -1) :=
  maxRights_minus_one_characterization.2.2.1
    ["lrwxrwxrwx 1 u g 1 Jan 1 link -> t"] (by decide)

/-- C6: in every probe result a delete flag is true only if the corresponding
create flag is true; rmd is issued only when mkd succeeded and delete only
when storbinary succeeded; and when mkd and storbinary both fail with
error_perm the probe returns (false, false, false, false) with no delete
call issued. -/
theorem probe_delete_only_after_create (s : ProbeSession) :
    ((flagsOf s).2.1 = true → (flagsOf s).1 = true) ∧
    ((flagsOf s).2.2.2 = true → (flagsOf s).2.2.1 = true) ∧
    (ProbeCall.rmd ∈ (checkWriteAndDeleteAccess s).1 → s.mkd = OpResult.ok) ∧
    (ProbeCall.delete ∈ (checkWriteAndDeleteAccess s).1 → s.stor = OpResult.ok) ∧
    (s.mkd = OpResult.err FtpErr.perm → s.stor = OpResult.err FtpErr.perm →
      okOf (checkWriteAndDeleteAccess s).2 = some (false, false, false, false) ∧
      ProbeCall.rmd ∉ (checkWriteAndDeleteAccess s).1 ∧
      ProbeCall.delete ∉ (checkWriteAndDeleteAccess s).1) := by
  obtain ⟨m, r, u, d⟩ := s
  rcases m with _ | (_ | _ | _ | _) <;> rcases r with _ | (_ | _ | _ | _) <;>
    rcases u with _ | (_ | _ | _ | _) <;> rcases d with _ | (_ | _ | _ | _) <;> decide

/-- C6 witness: the theorem's final clause at the session where mkd and
storbinary both fail with error_perm. -/
theorem probe_delete_only_after_create_witness :
    okOf (checkWriteAndDeleteAccess
        ⟨OpResult.err FtpErr.perm, OpResult.ok, OpResult.err FtpErr.perm, OpResult.ok⟩).2 =
      some (false, false, false, false) ∧
    ProbeCall.rmd ∉ (checkWriteAndDeleteAccess
        ⟨OpResult.err FtpErr.perm, OpResult.ok, OpResult.err FtpErr.perm, OpResult.ok⟩).1 ∧
    ProbeCall.delete ∉ (checkWriteAndDeleteAccess
        ⟨OpResult.err FtpErr.perm, OpResult.ok, OpResult.err FtpErr.perm, OpResult.ok⟩).1 :=
  (probe_delete_only_after_create
    ⟨OpResult.err FtpErr.perm, OpResult.ok, OpResult.err FtpErr.perm, OpResult.ok⟩).2.2.2.2
    rfl rfl

theorem probe_prop_part1 (s : ProbeSession) :
    step1Clean s = true → ProbeCall.stor ∈ (checkWriteAndDeleteAccess s).1 := by
  obtain ⟨m, r, u, d⟩ := s
  rcases m with _ | (_ | _ | _ | _) <;> rcases r with _ | (_ | _ | _ | _) <;>
    rcases u with _ | (_ | _ | _ | _) <;> rcases d with _ | (_ | _ | _ | _) <;> decide

theorem probe_prop_part2 (s : ProbeSession) :
    step1Clean s = true →
    (s.stor = OpResult.ok ∨ s.stor = OpResult.err FtpErr.perm) →
    (s.delete = OpResult.ok ∨ s.delete = OpResult.err FtpErr.perm) →
    errOf (checkWriteAndDeleteAccess s).2 = none := by
  obtain ⟨m, r, u, d⟩ := s
  rcases m with _ | (_ | _ | _ | _) <;> rcases r with _ | (_ | _ | _ | _) <;>
    rcases u with _ | (_ | _ | _ | _) <;> rcases d with _ | (_ | _ | _ | _) <;> decide

theorem probe_prop_part3 (s : ProbeSession) (e : FtpErr) (he : e ≠ FtpErr.perm) :
    s.mkd = OpResult.err e →
    errOf (checkWriteAndDeleteAccess s).2 = some e ∧
      ProbeCall.stor ∉ (checkWriteAndDeleteAccess s).1 := by
  obtain ⟨m, r, u, d⟩ := s
  rcases e with _ | _ | _ | _
  · exact absurd rfl he
  all_goals
    rcases m with _ | (_ | _ | _ | _) <;> rcases r with _ | (_ | _ | _ | _) <;>
      rcases u with _ | (_ | _ | _ | _) <;> rcases d with _ | (_ | _ | _ | _) <;> decide

theorem probe_prop_part4 (s : ProbeSession) (e : FtpErr) (he : e ≠ FtpErr.perm) :
    s.mkd = OpResult.ok → s.rmd = OpResult.err e →
    errOf (checkWriteAndDeleteAccess s).2 = some e ∧
      ProbeCall.stor ∉ (checkWriteAndDeleteAccess s).1 := by
  obtain ⟨m, r, u, d⟩ := s
  rcases e with _ | _ | _ | _
  · exact absurd rfl he
  all_goals
    rcases m with _ | (_ | _ | _ | _) <;> rcases r with _ | (_ | _ | _ | _) <;>
      rcases u with _ | (_ | _ | _ | _) <;> rcases d with _ | (_ | _ | _ | _) <;> decide

theorem probe_prop_part5 (s : ProbeSession) (e : FtpErr) (he : e ≠ FtpErr.perm) :
    step1Clean s = true → s.stor = OpResult.err e →
    errOf (checkWriteAndDeleteAccess s).2 = some e := by
  obtain ⟨m, r, u, d⟩ := s
  rcases e with _ | _ | _ | _
  · exact absurd rfl he
  all_goals
    rcases m with _ | (_ | _ | _ | _) <;> rcases r with _ | (_ | _ | _ | _) <;>
      rcases u with _ | (_ | _ | _ | _) <;> rcases d with _ | (_ | _ | _ | _) <;> decide

theorem probe_prop_part6 (s : ProbeSession) (e : FtpErr) (he : e ≠ FtpErr.perm) :
    step1Clean s = true → s.stor = OpResult.ok → s.delete = OpResult.err e →
    errOf (checkWriteAndDeleteAccess s).2 = some e := by
  obtain ⟨m, r, u, d⟩ := s
  rcases e with _ | _ | _ | _
  · exact absurd rfl he
  all_goals
    rcases m with _ | (_ | _ | _ | _) <;> rcases r with _ | (_ | _ | _ | _) <;>
      rcases u with _ | (_ | _ | _ | _) <;> rcases d with _ | (_ | _ | _ | _) <;> decide

/-- C7: a PermissionDenied failure of any of the four probe operations is
absorbed (step 1 clean implies storbinary is still issued, and with every
operation succeeding or permission-denied no error propagates), while an
error of any other category raised by mkd, rmd, storbinary or delete is not
caught and propagates out of the probe (and for a step-1 fault, storbinary
is never reached). -/
theorem probe_error_propagation (s : ProbeSession) (e : FtpErr) (he : e ≠ FtpErr.perm) :
    (step1Clean s = true → ProbeCall.stor ∈ (checkWriteAndDeleteAccess s).1) ∧
    (step1Clean s = true →
      (s.stor = OpResult.ok ∨ s.stor = OpResult.err FtpErr.perm) →
      (s.delete = OpResult.ok ∨ s.delete = OpResult.err FtpErr.perm) →
      errOf (checkWriteAndDeleteAccess s).2 = none) ∧
    (s.mkd = OpResult.err e →
      errOf (checkWriteAndDeleteAccess s).2 = some e ∧
      ProbeCall.stor ∉ (checkWriteAndDeleteAccess s).1) ∧
    (s.mkd = OpResult.ok → s.rmd = OpResult.err e →
      errOf (checkWriteAndDeleteAccess s).2 = some e ∧
      ProbeCall.stor ∉ (checkWriteAndDeleteAccess s).1) ∧
    (step1Clean s = true → s.stor = OpResult.err e →
      errOf (checkWriteAndDeleteAccess s).2 = some e) ∧
    (step1Clean s = true → s.stor = OpResult.ok → s.delete = OpResult.err e →
      errOf (checkWriteAndDeleteAccess s).2 = some e) :=
  ⟨probe_prop_part1 s, probe_prop_part2 s, probe_prop_part3 s e he,
   probe_prop_part4 s e he, probe_prop_part5 s e he, probe_prop_part6 s e he⟩

/-- C7 witness: a temporary error of storbinary, after a permission-denied
mkd, propagates out of the probe. -/
theorem probe_error_propagation_witness :
    errOf (checkWriteAndDeleteAccess
        ⟨OpResult.err FtpErr.perm, OpResult.ok, OpResult.err FtpErr.temp, OpResult.ok⟩).2 =
      some FtpErr.temp :=
  (probe_error_propagation
    ⟨OpResult.err FtpErr.perm, OpResult.ok, OpResult.err FtpErr.temp, OpResult.ok⟩
    FtpErr.temp (by decide)).2.2.2.2.1 rfl rfl

/-- C10 counterexample: with the module-level defaults produced by the
definition-time random draws (here the concrete draws 0, 0), two successive
invocations of checkWriteAndDeleteAccess that omit the name arguments use the
same directory name and the same file name, contradicting the claim that the
default names are generated fresh per call. -/
theorem probe_default_names_reused :
    (twoDefaultCalls (defDefaults 0 0)).1 = (twoDefaultCalls (defDefaults 0 0)).2 ∧
      (twoDefaultCalls (defDefaults 0 0)).1.1 = "folder_to_delete_100000000" := by decide

/-- C10 amended: the default names are computed from the random source once,
when the def statement is evaluated, and every invocation omitting the name
arguments reads exactly those fixed names, so any two such invocations use
identical directory and file names, whatever the definition-time draws
were. -/
theorem probe_default_names_fixed_at_def (seed1 seed2 : Nat) :
    twoDefaultCalls (defDefaults seed1 seed2) =
      (((defDefaults seed1 seed2).dir_name, (defDefaults seed1 seed2).filename),
       ((defDefaults seed1 seed2).dir_name, (defDefaults seed1 seed2).filename)) := rfl

end FtpScan
